import Mathlib

/-!
Shallow embedding of `src/neuroknow.py` (NeuroKnow).

Python dictionaries are modelled as insertion-ordered association lists,
because CPython dicts preserve insertion order and `sorted` is stable, so the
order in which `modality_strengths` was built is observable through
`get_optimal_modality_mix`.  Floats are modelled as exact rationals.  Raised
exceptions are modelled with an explicit error type: the only failure the
source can produce is a `KeyError` from `self.profiles[user_id]`; the
spec-level error classes `DuplicateUserError` and `UnknownUserError` are
included as constructors so statements can compare against them, but no
embedded operation ever produces them (the source never defines or raises
them).
-/

namespace NeuroKnow

/-- The `LearningModality` enum from the source. -/
inductive LearningModality : Type
  | visual
  | kinesthetic
  | auditory
  | logical
deriving DecidableEq, Repr

/-- The `ErrorType` enum from the source. -/
inductive ErrorType : Type
  | conceptual_gap
  | procedural_error
  | attention_lapse
  | transfer_failure
deriving DecidableEq, Repr

/-- The `ErrorLog` dataclass from the source; the timestamp is modelled as a
rational number of minutes. -/
structure ErrorLog : Type where
  timestamp : ℚ
  concept : String
  error_type : ErrorType
  student_approach : String
deriving DecidableEq, Repr

/-- Python `d[k]` / `d.get(k)` on an insertion-ordered association list. -/
def dictLookup {α β : Type} [DecidableEq α] : List (α × β) → α → Option β
  | [], _ => none
  | q :: rest, k => if q.1 = k then some q.2 else dictLookup rest k

/-- Python `d[k] = v`: replace in place if the key exists (keeping its
position, as CPython dicts do), otherwise append at the end. -/
def dictSet {α β : Type} [DecidableEq α] : List (α × β) → α → β → List (α × β)
  | [], k, v => [(k, v)]
  | q :: rest, k, v => if q.1 = k then (k, v) :: rest else q :: dictSet rest k v

/-- The `CognitiveProfile` dataclass from the source. -/
structure CognitiveProfile : Type where
  user_id : String
  attention_pattern : String
  abstraction_preference : String
  modality_strengths : List (LearningModality × ℚ)
  error_recovery_speed : ℚ
  transfer_capacity : ℚ
deriving DecidableEq, Repr

/-- Stable insertion into a descending-sorted list: the new element is placed
after every element with a strictly larger key value and before every element
with a smaller-or-equal key value. -/
def insertDesc {α : Type} (val : α → ℚ) (x : α) : List α → List α
  | [] => [x]
  | y :: ys => if val x < val y then y :: insertDesc val x ys else x :: y :: ys

/-- Stable descending sort by `val`, modelling Python
`sorted(l, key=val, reverse=True)` (CPython sort is stable, and stability is
preserved under `reverse=True`). -/
def sortDesc {α : Type} (val : α → ℚ) : List α → List α
  | [] => []
  | x :: xs => insertDesc val x (sortDesc val xs)

/-- The sort key `lambda m: self.modality_strengths[m]` used by
`get_optimal_modality_mix` (the `getD 0` branch is unreachable, since the sort
only applies it to keys of the mapping). -/
def CognitiveProfile.strength (p : CognitiveProfile) (m : LearningModality) : ℚ :=
  (dictLookup p.modality_strengths m).getD 0

/-- Method `CognitiveProfile.get_optimal_modality_mix`:
`sorted(self.modality_strengths.keys(), key=lambda m: self.modality_strengths[m], reverse=True)`. -/
def CognitiveProfile.get_optimal_modality_mix (p : CognitiveProfile) :
    List LearningModality :=
  sortDesc p.strength (p.modality_strengths.map Prod.fst)

/-- Position of a modality in the canonical order the spec names for
tie-breaking: visual, kinesthetic, auditory, logical. -/
def canonIdx : LearningModality → ℕ
  | LearningModality.visual => 0
  | LearningModality.kinesthetic => 1
  | LearningModality.auditory => 2
  | LearningModality.logical => 3

/-- Diagnostic data as the source uses it: a mapping with an optional
`focus_durations` entry (`none` models an absent key); every other field the
mapping might carry is kept as an uninterpreted payload so determinism claims
quantify over genuinely different inputs. -/
structure DiagnosticData : Type where
  focus_durations : Option (List ℚ)
  other : List (String × String)
deriving DecidableEq, Repr

/-- Source expression `np.mean(focus_durations) if focus_durations else 25` after
`data.get('focus_durations', [])`: an absent key and a present-but-empty list
are both falsy, giving the default 25. -/
def avg_focus (data : DiagnosticData) : ℚ :=
  let fd := data.focus_durations.getD []
  if fd.isEmpty then 25 else fd.sum / fd.length

/-- Method `CognitiveFingerprinter.assess_attention_pattern` from the source. -/
def assess_attention_pattern (data : DiagnosticData) : String :=
  let a := avg_focus data
  if a < 15 then "sprinter" else if a > 40 then "marathon" else "cyclical"

/-- Method `CognitiveFingerprinter.assess_modality_strengths` from the source:
a constant mapping, built in the order visual, kinesthetic, auditory,
logical. -/
def assess_modality_strengths (_data : DiagnosticData) :
    List (LearningModality × ℚ) :=
  [(LearningModality.visual, 0.8), (LearningModality.kinesthetic, 0.6),
   (LearningModality.auditory, 0.4), (LearningModality.logical, 0.9)]

/-- Modelled from the spec: `_assess_abstraction_pref` is called by
`analyze_initial_interaction` but is missing from the source.  The spec only
constrains the result to lie in {concrete_first, abstract_first}; it is
modelled as the constant concrete_first. -/
def assess_abstraction_pref (_data : DiagnosticData) : String :=
  "concrete_first"

/-- Gaps, in minutes, between an error on a concept and the next error on the
same concept, in log order. -/
def conceptGaps : List ErrorLog → List ℚ
  | [] => []
  | l :: rest =>
      (match rest.find? (fun l2 => l2.concept = l.concept) with
       | some l2 => [l2.timestamp - l.timestamp]
       | none => []) ++ conceptGaps rest

/-- Modelled from the spec: `_analyze_error_recovery` is missing from the
source.  Per the spec it recomputes recovery speed from the temporal pattern
of repeated errors on the same concept, a shorter gap meaning a higher speed;
with no repeated error observed there is no evidence, and since the helper
receives only the logs (never the profile) it cannot echo the profile's
current value, so it returns the uninformed prior 0.5.  The concrete rule
`1 / (1 + mean gap)` is decreasing in the mean gap and lies in (0, 1]. -/
def analyze_error_recovery (error_logs : List ErrorLog) : ℚ :=
  let gaps := conceptGaps error_logs
  if gaps.isEmpty then 0.5 else 1 / (1 + gaps.sum / gaps.length)

/-- Which modality, if any, a log's free-text `student_approach` names. -/
def modalityOfApproach (s : String) : Option LearningModality :=
  if s = "visual" then some LearningModality.visual
  else if s = "kinesthetic" then some LearningModality.kinesthetic
  else if s = "auditory" then some LearningModality.auditory
  else if s = "logical" then some LearningModality.logical
  else none

/-- Number of logs attributing a successful resolution to modality `m`. -/
def attributedCount (error_logs : List ErrorLog) (m : LearningModality) : ℕ :=
  (error_logs.filter (fun l => modalityOfApproach l.student_approach = some m)).length

/-- Modelled from the spec: `_extract_success_patterns` is missing from the
source.  Per the spec it scores, per modality, how effective instruction in
that modality was at producing a successful resolution after an error; the
logs carry that attribution only in the free-text `student_approach`, so the
model reads the modality named there.  A modality appears in the result
exactly when at least one log attributes a resolution to it, with score
n / (n + 1) for n attributed logs (more evidence gives a higher score,
always in [0, 1)). -/
def extract_success_patterns (error_logs : List ErrorLog) :
    List (LearningModality × ℚ) :=
  error_logs.foldl
    (fun acc l =>
      match modalityOfApproach l.student_approach with
      | some m =>
          dictSet acc m ((attributedCount error_logs m : ℚ) /
            ((attributedCount error_logs m : ℚ) + 1))
      | none => acc)
    []

/-- The mutable state of a `CognitiveFingerprinter`: its `profiles` registry
(user_id to profile), an insertion-ordered dict. -/
structure Fingerprinter : Type where
  profiles : List (String × CognitiveProfile)
deriving DecidableEq, Repr

/-- The exceptions the embedded operations can signal.  The source only ever
raises `KeyError` (from `self.profiles[user_id]`); the spec-level classes
`DuplicateUserError` and `UnknownUserError` are constructors here so that
statements can compare against them, but the source never defines or raises
them. -/
inductive PyErr : Type
  | keyError (key : String)
  | duplicateUserError
  | unknownUserError
deriving DecidableEq, Repr

/-- Method `CognitiveFingerprinter.analyze_initial_interaction` from the source:
build the profile (recovery speed and transfer capacity seeded at 0.5),
store it under `user_id` — overwriting any existing entry, with no duplicate
check — and return it.  Per the spec's design note, the underscored
`_assess_attention_pattern` / `_assess_modality_strengths` it calls are the
same operations as the non-underscored methods defined in the source. -/
def analyze_initial_interaction (st : Fingerprinter) (user_id : String)
    (diagnostic_data : DiagnosticData) : Fingerprinter × CognitiveProfile :=
  let profile : CognitiveProfile :=
    { user_id := user_id
      attention_pattern := assess_attention_pattern diagnostic_data
      abstraction_preference := assess_abstraction_pref diagnostic_data
      modality_strengths := assess_modality_strengths diagnostic_data
      error_recovery_speed := 0.5
      transfer_capacity := 0.5 }
  ({ profiles := dictSet st.profiles user_id profile }, profile)

/-- The in-place mutation `update_from_errors` performs on the profile it
looked up: overwrite `error_recovery_speed` with the recomputed value, then
assign each extracted success pattern into `modality_strengths`. -/
def apply_error_update (p : CognitiveProfile) (error_logs : List ErrorLog) :
    CognitiveProfile :=
  let p1 := { p with error_recovery_speed := analyze_error_recovery error_logs }
  { p1 with
      modality_strengths :=
        (extract_success_patterns error_logs).foldl
          (fun ms q => dictSet ms q.1 q.2) p1.modality_strengths }

/-- Method `CognitiveFingerprinter.update_from_errors` from the source:
`self.profiles[user_id]` raises `KeyError` for an unknown user (before any
mutation); otherwise the stored profile is mutated in place and the method
falls off the end, returning Python `None` (modelled as `Except.ok none`). -/
def update_from_errors (st : Fingerprinter) (user_id : String)
    (error_logs : List ErrorLog) :
    Fingerprinter × Except PyErr (Option CognitiveProfile) :=
  match dictLookup st.profiles user_id with
  | none => (st, Except.error (PyErr.keyError user_id))
  | some p =>
      ({ profiles := dictSet st.profiles user_id (apply_error_update p error_logs) },
       Except.ok none)

/-! ### Concrete data used in witnesses and counterexamples -/

/-- A diagnostic record with no focus durations. -/
def sampleDiag : DiagnosticData := ⟨none, []⟩

/-- Registry state after `analyze_initial_interaction` for user "u1". -/
def sampleState : Fingerprinter :=
  (analyze_initial_interaction ⟨[]⟩ "u1" sampleDiag).1

/-- The profile `analyze_initial_interaction` returns for user "u1". -/
def sampleProfile : CognitiveProfile :=
  (analyze_initial_interaction ⟨[]⟩ "u1" sampleDiag).2

/-- Two errors on the same concept three minutes apart: the modelled recovery
analysis yields 1 / (1 + 3) = 1/4. -/
def gapLogs : List ErrorLog :=
  [⟨0, "fractions", ErrorType.conceptual_gap, "tried halving"⟩,
   ⟨3, "fractions", ErrorType.procedural_error, "tried halving again"⟩]

/-- One error whose resolution is attributed to the visual modality. -/
def visLog : List ErrorLog :=
  [⟨0, "fractions", ErrorType.conceptual_gap, "visual"⟩]

/-- A profile holding all four modalities at equal strength, inserted in a
non-canonical order (auditory first). -/
def tieProfile : CognitiveProfile :=
  { user_id := "u-tie"
    attention_pattern := "cyclical"
    abstraction_preference := "concrete_first"
    modality_strengths :=
      [(LearningModality.auditory, 0.5), (LearningModality.visual, 0.5),
       (LearningModality.kinesthetic, 0.5), (LearningModality.logical, 0.5)]
    error_recovery_speed := 0.5
    transfer_capacity := 0.5 }

/-! ### Helper lemmas about the dictionary model -/

/-- Looking up the key just assigned returns the assigned value. -/
theorem dictLookup_dictSet_self {α β : Type} [DecidableEq α]
    (d : List (α × β)) (k : α) (v : β) :
    dictLookup (dictSet d k v) k = some v := by
  induction d with
  | nil => simp [dictSet, dictLookup]
  | cons q rest ih =>
    rw [dictSet]
    split_ifs with h
    · simp [dictLookup]
    · rw [dictLookup]
      simp only [h, if_false]
      exact ih

/-- Assigning one key leaves lookups of any other key unchanged. -/
theorem dictLookup_dictSet_ne {α β : Type} [DecidableEq α]
    (d : List (α × β)) (k k₂ : α) (v : β) (h : k₂ ≠ k) :
    dictLookup (dictSet d k v) k₂ = dictLookup d k₂ := by
  have hk : ¬(k = k₂) := fun e => h e.symm
  induction d with
  | nil => simp [dictSet, dictLookup, hk]
  | cons q rest ih =>
    rw [dictSet]
    split_ifs with hq
    · rw [dictLookup, dictLookup, hq]
      simp [hk]
    · rw [dictLookup, dictLookup]
      split_ifs with hq2
      · rfl
      · exact ih

/-- Folding a batch of assignments over a dictionary does not change the
lookup of a key that none of the assignments mentions. -/
theorem dictLookup_foldl_dictSet {α β : Type} [DecidableEq α]
    (sp : List (α × β)) (ms : List (α × β)) (m : α)
    (hm : m ∉ sp.map Prod.fst) :
    dictLookup (sp.foldl (fun acc q => dictSet acc q.1 q.2) ms) m
      = dictLookup ms m := by
  induction sp generalizing ms with
  | nil => rfl
  | cons q rest ih =>
    rw [List.map_cons, List.mem_cons, not_or] at hm
    rw [List.foldl_cons, ih _ hm.2, dictLookup_dictSet_ne _ _ _ _ hm.1]

/-! ### Helper lemmas about the stable descending sort -/

/-- Inserting an element is a permutation of consing it. -/
theorem insertDesc_perm {α : Type} (val : α → ℚ) (x : α) (l : List α) :
    (insertDesc val x l).Perm (x :: l) := by
  induction l with
  | nil => rfl
  | cons y ys ih =>
    rw [insertDesc]
    split_ifs with h
    · exact (ih.cons y).trans (List.Perm.swap x y ys)
    · rfl

/-- The stable descending sort permutes its input. -/
theorem sortDesc_perm {α : Type} (val : α → ℚ) (l : List α) :
    (sortDesc val l).Perm l := by
  induction l with
  | nil => rfl
  | cons x xs ih =>
    rw [sortDesc]
    exact (insertDesc_perm val x (sortDesc val xs)).trans (ih.cons x)

/-- Stability of insertion: inserting an input-earlier element `x` into a list
that is descending with earlier-first tie-breaks (recorded by `P`) keeps that
shape, provided `x` is input-earlier than everything in the list. -/
theorem insertDesc_pairwise {α : Type} (val : α → ℚ) (P : α → α → Prop)
    (x : α) (l : List α)
    (hl : l.Pairwise (fun a b => val b < val a ∨ (val a = val b ∧ P a b)))
    (hx : ∀ y ∈ l, P x y) :
    (insertDesc val x l).Pairwise
      (fun a b => val b < val a ∨ (val a = val b ∧ P a b)) := by
  induction l with
  | nil => simp [insertDesc]
  | cons y ys ih =>
    rw [List.pairwise_cons] at hl
    rw [insertDesc]
    split_ifs with hlt
    · refine List.pairwise_cons.mpr ⟨?_, ih hl.2 (fun z hz => hx z (List.mem_cons_of_mem y hz))⟩
      intro z hz
      rcases List.mem_cons.mp ((insertDesc_perm val x ys).mem_iff.mp hz) with rfl | hzys
      · exact Or.inl hlt
      · exact hl.1 z hzys
    · push_neg at hlt
      refine List.pairwise_cons.mpr ⟨?_, List.pairwise_cons.mpr hl⟩
      intro z hz
      rcases List.mem_cons.mp hz with rfl | hzys
      · rcases lt_or_eq_of_le hlt with h | h
        · exact Or.inl h
        · exact Or.inr ⟨h.symm, hx z (List.mem_cons_self z ys)⟩
      · rcases hl.1 z hzys with h | h
        · exact Or.inl (lt_of_lt_of_le h hlt)
        · rcases lt_or_eq_of_le hlt with h2 | h2
          · exact Or.inl (h.1 ▸ h2)
          · exact Or.inr ⟨h2.symm.trans h.1, hx z (List.mem_cons_of_mem y hzys)⟩

/-- Stability of the sort: if the input is ordered by `P` (for instance, by
its own left-to-right order), the output is descending in `val` with ties
ordered by `P`. -/
theorem sortDesc_pairwise {α : Type} (val : α → ℚ) (P : α → α → Prop)
    (l : List α) (hl : l.Pairwise P) :
    (sortDesc val l).Pairwise
      (fun a b => val b < val a ∨ (val a = val b ∧ P a b)) := by
  induction l with
  | nil => simp [sortDesc]
  | cons x xs ih =>
    rw [List.pairwise_cons] at hl
    rw [sortDesc]
    exact insertDesc_pairwise val P x (sortDesc val xs) (ih hl.2)
      (fun y hy => hl.1 y ((sortDesc_perm val xs).mem_iff.mp hy))

/-! ### Claim theorems -/

/-- C4: `assess_attention_pattern` returns sprinter exactly when the mean
focus duration is strictly below 15, marathon exactly when it is strictly
above 40, and cyclical exactly when the mean lies in the closed interval
[15, 40] (so the boundaries 15 and 40 resolve to cyclical); an empty (or
absent) focus-duration sequence gives the default mean 25 and hence
cyclical. -/
theorem c4_attention_classification (d : DiagnosticData) :
    (assess_attention_pattern d = "sprinter" ↔ avg_focus d < 15) ∧
    (assess_attention_pattern d = "marathon" ↔ 40 < avg_focus d) ∧
    (assess_attention_pattern d = "cyclical" ↔
      15 ≤ avg_focus d ∧ avg_focus d ≤ 40) ∧
    ((d.focus_durations.getD []).isEmpty = true →
      avg_focus d = 25 ∧ assess_attention_pattern d = "cyclical") := by
  have hemp : (d.focus_durations.getD []).isEmpty = true → avg_focus d = 25 := by
    intro h
    simp [avg_focus, h]
  simp only [assess_attention_pattern]
  split_ifs with h1 h2
  · have hn40 : ¬(40 < avg_focus d) := by linarith
    have hn15 : ¬(15 ≤ avg_focus d) := not_le.mpr h1
    have hne : ¬((d.focus_durations.getD []).isEmpty = true) := by
      intro h
      rw [hemp h] at h1
      norm_num at h1
    refine ⟨?_, ?_, ?_, ?_⟩
    · simp [h1]
    · simp +decide [hn40]
    · simp +decide [hn15]
    · simp [hne]
  · have hne : ¬((d.focus_durations.getD []).isEmpty = true) := by
      intro h
      rw [hemp h] at h2
      norm_num at h2
    refine ⟨?_, ?_, ?_, ?_⟩
    · simp +decide [h1]
    · simp [gt_iff_lt] at h2
      simp [h2]
    · simp +decide [not_le.mpr h2]
    · simp [hne]
  · push_neg at h1 h2
    refine ⟨?_, ?_, ?_, ?_⟩
    · simp +decide [not_lt.mpr h1]
    · simp +decide [not_lt.mpr h2]
    · simp [h1, h2]
    · exact fun h => ⟨hemp h, rfl⟩

/-- Witness for C4: the empty diagnostic record has an empty focus-duration
sequence, mean 25, and is classified cyclical. -/
theorem c4_witness :
    ((sampleDiag.focus_durations.getD []).isEmpty = true) ∧
    (avg_focus sampleDiag = 25 ∧ assess_attention_pattern sampleDiag = "cyclical") :=
  ⟨rfl, (c4_attention_classification sampleDiag).2.2.2 rfl⟩

/-- C7: `assess_modality_strengths` is deterministic (identical results for
any two inputs), returns exactly the four modalities in its key list, and
every score lies in [0, 1]. -/
theorem c7_modality_contract (d d2 : DiagnosticData) :
    assess_modality_strengths d = assess_modality_strengths d2 ∧
    (assess_modality_strengths d).map Prod.fst =
      [LearningModality.visual, LearningModality.kinesthetic,
       LearningModality.auditory, LearningModality.logical] ∧
    ∀ q ∈ assess_modality_strengths d, 0 ≤ q.2 ∧ q.2 ≤ 1 := by
  refine ⟨rfl, rfl, ?_⟩
  intro q hq
  simp only [assess_modality_strengths, List.mem_cons, List.not_mem_nil, or_false] at hq
  rcases hq with rfl | rfl | rfl | rfl <;> norm_num

/-- Witness for C7 at two concrete, distinct diagnostic records. -/
theorem c7_witness :
    assess_modality_strengths sampleDiag = assess_modality_strengths ⟨some [10], [("style", "quiz")]⟩ ∧
    (assess_modality_strengths sampleDiag).map Prod.fst =
      [LearningModality.visual, LearningModality.kinesthetic,
       LearningModality.auditory, LearningModality.logical] ∧
    ∀ q ∈ assess_modality_strengths sampleDiag, 0 ≤ q.2 ∧ q.2 ≤ 1 :=
  c7_modality_contract sampleDiag ⟨some [10], [("style", "quiz")]⟩

/-- C9: every profile built by `analyze_initial_interaction` has
`error_recovery_speed` and `transfer_capacity` seeded at 0.5, and it is that
very profile that gets registered. -/
theorem c9_seeded_priors (st : Fingerprinter) (uid : String) (d : DiagnosticData) :
    (analyze_initial_interaction st uid d).2.error_recovery_speed = 0.5 ∧
    (analyze_initial_interaction st uid d).2.transfer_capacity = 0.5 ∧
    dictLookup (analyze_initial_interaction st uid d).1.profiles uid
      = some (analyze_initial_interaction st uid d).2 :=
  ⟨rfl, rfl, dictLookup_dictSet_self _ _ _⟩

/-- C10: `assess_modality_strengths` is the constant function returning
visual at 0.8, kinesthetic at 0.6, auditory at 0.4 and logical at 0.9, so its
result carries no information about the diagnostic data. -/
theorem c10_constant_modality_strengths (d d2 : DiagnosticData) :
    assess_modality_strengths d =
      [(LearningModality.visual, 0.8), (LearningModality.kinesthetic, 0.6),
       (LearningModality.auditory, 0.4), (LearningModality.logical, 0.9)] ∧
    assess_modality_strengths d = assess_modality_strengths d2 :=
  ⟨rfl, rfl⟩

/-- C1 counterexample: registering "u1" with short focus durations stores a
sprinter profile; a second `analyze_initial_interaction` for the same user
with long durations does not fail (no `DuplicateUserError` exists in the
code) — it silently replaces the stored profile, which afterwards reads
marathon, so the original profile was not left untouched. -/
theorem c1_counterexample :
    ((dictLookup (analyze_initial_interaction ⟨[]⟩ "u1" ⟨some [10], []⟩).1.profiles "u1").map
        CognitiveProfile.attention_pattern = some "sprinter") ∧
    ((dictLookup (analyze_initial_interaction
          (analyze_initial_interaction ⟨[]⟩ "u1" ⟨some [10], []⟩).1
          "u1" ⟨some [50], []⟩).1.profiles "u1").map
        CognitiveProfile.attention_pattern = some "marathon") := by
  constructor <;>
    norm_num +decide [analyze_initial_interaction, dictSet, dictLookup,
      assess_attention_pattern, avg_focus, assess_abstraction_pref,
      assess_modality_strengths]

/-- C1 amended: a second `analyze_initial_interaction` for an already
registered user_id succeeds and silently replaces the stored profile with the
newly computed one (which is also returned). -/
theorem c1_amended (st : Fingerprinter) (uid : String) (d : DiagnosticData)
    (_h : (dictLookup st.profiles uid).isSome = true) :
    dictLookup (analyze_initial_interaction st uid d).1.profiles uid
      = some (analyze_initial_interaction st uid d).2 :=
  dictLookup_dictSet_self _ _ _

/-- Witness for C1 amended: "u1" is registered in `sampleState`, and
re-registering it stores the freshly computed profile. -/
theorem c1_witness :
    ((dictLookup sampleState.profiles "u1").isSome = true) ∧
    dictLookup (analyze_initial_interaction sampleState "u1" ⟨some [50], []⟩).1.profiles "u1"
      = some (analyze_initial_interaction sampleState "u1" ⟨some [50], []⟩).2 :=
  ⟨rfl, c1_amended sampleState "u1" ⟨some [50], []⟩ rfl⟩

/-- C2 counterexample: `update_from_errors` on an unknown user fails with a
`KeyError` from `self.profiles[user_id]` — not with `UnknownUserError`,
which the code never defines — and the registry still has no profile for the
user. -/
theorem c2_counterexample :
    ((update_from_errors ⟨[]⟩ "u1" []).2 = Except.error (PyErr.keyError "u1")) ∧
    ((update_from_errors ⟨[]⟩ "u1" []).2 ≠ Except.error PyErr.unknownUserError) ∧
    dictLookup (update_from_errors ⟨[]⟩ "u1" []).1.profiles "u1" = none := by
  refine ⟨rfl, ?_, rfl⟩
  intro h
  rw [show (update_from_errors ⟨[]⟩ "u1" []).2 = Except.error (PyErr.keyError "u1") from rfl] at h
  exact PyErr.noConfusion (Except.error.inj h)

/-- C2 amended: for an unregistered user_id, `update_from_errors` fails with
a `KeyError` (the registry lookup), and the registry afterwards still
contains no profile for that user_id. -/
theorem c2_amended (st : Fingerprinter) (uid : String) (logs : List ErrorLog)
    (h : dictLookup st.profiles uid = none) :
    (update_from_errors st uid logs).2 = Except.error (PyErr.keyError uid) ∧
    dictLookup (update_from_errors st uid logs).1.profiles uid = none := by
  simp [update_from_errors, h]

/-- Witness for C2 amended on the empty registry. -/
theorem c2_witness :
    (dictLookup (Fingerprinter.mk []).profiles "u9" = none) ∧
    ((update_from_errors ⟨[]⟩ "u9" gapLogs).2 = Except.error (PyErr.keyError "u9") ∧
      dictLookup (update_from_errors ⟨[]⟩ "u9" gapLogs).1.profiles "u9" = none) :=
  ⟨rfl, c2_amended ⟨[]⟩ "u9" gapLogs rfl⟩

/-- C3 counterexample: for a registered user, `update_from_errors` returns
Python `None` (the method has no return statement) while a profile is stored
in the registry, so the return value is not the updated profile. -/
theorem c3_counterexample :
    ((update_from_errors sampleState "u1" []).2 = Except.ok none) ∧
    ((dictLookup (update_from_errors sampleState "u1" []).1.profiles "u1").isSome = true) :=
  ⟨rfl, rfl⟩

/-- C3 amended: for a registered user, `update_from_errors` mutates the
stored profile in the registry (to `apply_error_update` of the old one) but
returns `None`; the updated profile must be read back from the registry. -/
theorem c3_amended (st : Fingerprinter) (uid : String) (logs : List ErrorLog)
    (p : CognitiveProfile) (h : dictLookup st.profiles uid = some p) :
    (update_from_errors st uid logs).2 = Except.ok none ∧
    dictLookup (update_from_errors st uid logs).1.profiles uid
      = some (apply_error_update p logs) := by
  simp [update_from_errors, h, dictLookup_dictSet_self]

/-- Witness for C3 amended: user "u1" of `sampleState` with the two-error
log list. -/
theorem c3_witness :
    (dictLookup sampleState.profiles "u1" = some sampleProfile) ∧
    ((update_from_errors sampleState "u1" gapLogs).2 = Except.ok none ∧
      dictLookup (update_from_errors sampleState "u1" gapLogs).1.profiles "u1"
        = some (apply_error_update sampleProfile gapLogs)) :=
  ⟨rfl, c3_amended sampleState "u1" gapLogs sampleProfile rfl⟩

/-- C5 counterexample: `tieProfile` holds all four modalities at equal
strength, inserted with auditory first; `get_optimal_modality_mix` (a stable
sort) returns them in insertion order, so auditory precedes visual and the
fixed canonical tie-break order visual, kinesthetic, auditory, logical is
violated. -/
theorem c5_counterexample :
    (tieProfile.get_optimal_modality_mix
      = [LearningModality.auditory, LearningModality.visual,
         LearningModality.kinesthetic, LearningModality.logical]) ∧
    ¬ tieProfile.get_optimal_modality_mix.Pairwise
        (fun a b => tieProfile.strength a = tieProfile.strength b →
          canonIdx a < canonIdx b) := by
  have hmix : tieProfile.get_optimal_modality_mix
      = [LearningModality.auditory, LearningModality.visual,
         LearningModality.kinesthetic, LearningModality.logical] := by
    norm_num +decide [tieProfile, CognitiveProfile.get_optimal_modality_mix,
      CognitiveProfile.strength, sortDesc, insertDesc, dictLookup]
  refine ⟨hmix, ?_⟩
  intro hpw
  rw [hmix] at hpw
  have h := (List.pairwise_cons.mp hpw).1 LearningModality.visual
    (List.mem_cons_self _ _)
  exact absurd (h rfl) (by decide)

/-- C5 amended: `get_optimal_modality_mix` returns a permutation of the four
modalities sorted by descending strength; ties are broken by the mapping's
insertion order (the sort is stable), so whenever the mapping was built in
the canonical order visual, kinesthetic, auditory, logical — as
`assess_modality_strengths` builds it — equal strengths do appear in that
canonical order. -/
theorem c5_amended (p : CognitiveProfile)
    (h : p.modality_strengths.map Prod.fst =
      [LearningModality.visual, LearningModality.kinesthetic,
       LearningModality.auditory, LearningModality.logical]) :
    p.get_optimal_modality_mix.Perm
      [LearningModality.visual, LearningModality.kinesthetic,
       LearningModality.auditory, LearningModality.logical] ∧
    p.get_optimal_modality_mix.Pairwise
      (fun a b => p.strength b < p.strength a ∨
        (p.strength a = p.strength b ∧ canonIdx a < canonIdx b)) := by
  constructor
  · rw [CognitiveProfile.get_optimal_modality_mix, h]
    exact sortDesc_perm _ _
  · rw [CognitiveProfile.get_optimal_modality_mix, h]
    exact sortDesc_pairwise p.strength (fun a b => canonIdx a < canonIdx b) _ (by decide)

/-- Witness for C5 amended: the profile created by
`analyze_initial_interaction` has its modality mapping in canonical order,
and its modality mix is a descending, canonically tie-broken permutation of
the four modalities. -/
theorem c5_witness :
    (sampleProfile.modality_strengths.map Prod.fst =
      [LearningModality.visual, LearningModality.kinesthetic,
       LearningModality.auditory, LearningModality.logical]) ∧
    (sampleProfile.get_optimal_modality_mix.Perm
      [LearningModality.visual, LearningModality.kinesthetic,
       LearningModality.auditory, LearningModality.logical] ∧
    sampleProfile.get_optimal_modality_mix.Pairwise
      (fun a b => sampleProfile.strength b < sampleProfile.strength a ∨
        (sampleProfile.strength a = sampleProfile.strength b ∧ canonIdx a < canonIdx b))) :=
  ⟨rfl, c5_amended sampleProfile rfl⟩

/-- C6 counterexample: after a non-empty update sets "u1"'s recovery speed to
1/4, a second update with an empty error list resets it to the modelled
no-evidence default 1/2: the stored profile is not left unchanged by the
empty update. -/
theorem c6_counterexample :
    ((dictLookup (update_from_errors sampleState "u1" gapLogs).1.profiles "u1").map
        CognitiveProfile.error_recovery_speed = some (1/4)) ∧
    ((dictLookup (update_from_errors
          (update_from_errors sampleState "u1" gapLogs).1 "u1" []).1.profiles "u1").map
        CognitiveProfile.error_recovery_speed = some (1/2)) := by
  constructor <;>
    norm_num +decide [sampleState, sampleDiag, analyze_initial_interaction,
      assess_attention_pattern, avg_focus, assess_abstraction_pref,
      assess_modality_strengths, update_from_errors, apply_error_update,
      analyze_error_recovery, conceptGaps, extract_success_patterns,
      modalityOfApproach, attributedCount, dictLookup, dictSet, List.find?]

/-- C6 amended: an empty-error-list update leaves every field except
`error_recovery_speed` unchanged and sets `error_recovery_speed` to the
modelled no-evidence default 0.5; hence the stored profile is fully
unchanged exactly when its recovery speed was already 0.5 (as in a freshly
created profile). -/
theorem c6_amended (st : Fingerprinter) (uid : String) (p : CognitiveProfile)
    (h : dictLookup st.profiles uid = some p) :
    dictLookup (update_from_errors st uid []).1.profiles uid
      = some { p with error_recovery_speed := 0.5 } ∧
    ({ p with error_recovery_speed := 0.5 } = p ↔ p.error_recovery_speed = 0.5) := by
  constructor
  · have happ : apply_error_update p [] = { p with error_recovery_speed := 0.5 } := rfl
    simp [update_from_errors, h, dictLookup_dictSet_self, happ]
  · constructor
    · intro he
      exact (congrArg CognitiveProfile.error_recovery_speed he).symm
    · intro he
      rw [← he]

/-- Witness for C6 amended: the freshly created "u1" profile has recovery
speed 0.5, so for it the empty update is a genuine no-op. -/
theorem c6_witness :
    (dictLookup sampleState.profiles "u1" = some sampleProfile) ∧
    (dictLookup (update_from_errors sampleState "u1" []).1.profiles "u1"
        = some { sampleProfile with error_recovery_speed := 0.5 } ∧
      ({ sampleProfile with error_recovery_speed := 0.5 } = sampleProfile ↔
        sampleProfile.error_recovery_speed = 0.5)) :=
  ⟨rfl, c6_amended sampleState "u1" sampleProfile rfl⟩

/-- C8: for a registered user, `update_from_errors` stores exactly
`apply_error_update` of the old profile; a modality absent from the extracted
success patterns keeps its stored strength, and `user_id`,
`attention_pattern`, `abstraction_preference` and `transfer_capacity` are
unchanged. -/
theorem c8_frame (st : Fingerprinter) (uid : String) (logs : List ErrorLog)
    (p : CognitiveProfile) (m : LearningModality)
    (hp : dictLookup st.profiles uid = some p)
    (hm : m ∉ (extract_success_patterns logs).map Prod.fst) :
    dictLookup (update_from_errors st uid logs).1.profiles uid
        = some (apply_error_update p logs) ∧
    dictLookup (apply_error_update p logs).modality_strengths m
        = dictLookup p.modality_strengths m ∧
    (apply_error_update p logs).user_id = p.user_id ∧
    (apply_error_update p logs).attention_pattern = p.attention_pattern ∧
    (apply_error_update p logs).abstraction_preference = p.abstraction_preference ∧
    (apply_error_update p logs).transfer_capacity = p.transfer_capacity := by
  refine ⟨?_, ?_, rfl, rfl, rfl, rfl⟩
  · simp [update_from_errors, hp, dictLookup_dictSet_self]
  · exact dictLookup_foldl_dictSet _ _ _ hm

/-- Witness for C8: an error log attributing its resolution to the visual
modality leaves the auditory strength (and the listed scalar fields) of "u1"
untouched. -/
theorem c8_witness :
    (dictLookup sampleState.profiles "u1" = some sampleProfile) ∧
    (LearningModality.auditory ∉ (extract_success_patterns visLog).map Prod.fst) ∧
    (dictLookup (update_from_errors sampleState "u1" visLog).1.profiles "u1"
        = some (apply_error_update sampleProfile visLog) ∧
      dictLookup (apply_error_update sampleProfile visLog).modality_strengths
          LearningModality.auditory
        = dictLookup sampleProfile.modality_strengths LearningModality.auditory ∧
      (apply_error_update sampleProfile visLog).user_id = sampleProfile.user_id ∧
      (apply_error_update sampleProfile visLog).attention_pattern
        = sampleProfile.attention_pattern ∧
      (apply_error_update sampleProfile visLog).abstraction_preference
        = sampleProfile.abstraction_preference ∧
      (apply_error_update sampleProfile visLog).transfer_capacity
        = sampleProfile.transfer_capacity) :=
  ⟨rfl, by decide, c8_frame sampleState "u1" visLog sampleProfile
    LearningModality.auditory rfl (by decide)⟩

end NeuroKnow
